import Mathlib

set_option maxHeartbeats 1000000

/-
Shallow embedding of the CSI snapshot exposer from
pkg/exposer/csi_snapshot.go.

The object store is modelled as association lists keyed by object name
(plus namespace for namespaced kinds).  External collaborators that are
not part of the source file (the typed clients, the util/csi and
util/kube helpers, the node-agent info provider) are modelled as an
oracle environment that decides whether each remote call succeeds; the
objects the exposer builds and the order of the calls it issues are
translated directly from the source.
-/

namespace VeleroExposer

abbrev Quantity := Nat

inductive DeletionPolicy where
  | delete
  | retain
deriving DecidableEq

structure OwnerReference where
  apiVersion : String
  kind : String
  name : String
  uid : String
  controller : Bool
deriving DecidableEq

/-- corev1.ObjectReference for the owner object passed to the exposer. -/
structure ObjectReference where
  ns : String
  name : String
  uid : String
  apiVersion : String
  kind : String
deriving DecidableEq

/-- Spec.VolumeSnapshotRef of a VolumeSnapshotContent. -/
structure VSCRef where
  name : String
  ns : String
  uid : String
  resourceVersion : String
deriving DecidableEq

structure VolumeSnapshotStatus where
  boundVolumeSnapshotContentName : Option String
  restoreSize : Option Quantity
deriving DecidableEq

structure VolumeSnapshot where
  name : String
  ns : String
  uid : String
  resourceVersion : String
  annotations : List (String × String)
  ownerReferences : List OwnerReference
  sourceContentName : Option String
  volumeSnapshotClassName : Option String
  status : Option VolumeSnapshotStatus
deriving DecidableEq

structure VolumeSnapshotContent where
  name : String
  annotations : List (String × String)
  driver : String
  sourceSnapshotHandle : Option String
  statusSnapshotHandle : Option String
  deletionPolicy : DeletionPolicy
  volumeSnapshotClassName : Option String
  volumeSnapshotRef : VSCRef
deriving DecidableEq

inductive AccessMode where
  | readWriteOnce
  | readOnlyMany
deriving DecidableEq

inductive VolumeMode where
  | filesystem
  | block
deriving DecidableEq

structure TypedLocalObjectReference where
  apiGroup : Option String
  kind : String
  name : String
deriving DecidableEq

structure PVC where
  name : String
  ns : String
  ownerReferences : List OwnerReference
  accessModes : List AccessMode
  storageClassName : String
  volumeMode : Option VolumeMode
  dataSource : Option TypedLocalObjectReference
  dataSourceRef : Option TypedLocalObjectReference
  requestStorage : Quantity
deriving DecidableEq

structure VolumeMount where
  name : String
  mountPath : String
  readOnly : Bool
deriving DecidableEq

structure VolumeDevice where
  name : String
  devicePath : String
deriving DecidableEq

structure PodVolume where
  name : String
  pvcClaimName : Option String
  pvcReadOnly : Bool
deriving DecidableEq

structure LoadAffinity where
  tag : String
deriving DecidableEq

structure Affinity where
  sources : List LoadAffinity
deriving DecidableEq

structure ResourceRequirements where
  requests : List (String × Quantity)
  limits : List (String × Quantity)
deriving DecidableEq

structure Toleration where
  key : String
  operator : String
  effect : String
  value : String
deriving DecidableEq

structure SecurityContext where
  runAsUser : Option Int
  windowsRunAsUserName : Option String
  seLinuxType : Option String
deriving DecidableEq

structure TopologySpreadConstraint where
  maxSkew : Nat
  topologyKey : String
  whenUnsatisfiable : String
  matchLabels : List (String × String)
deriving DecidableEq

structure Container where
  name : String
  image : String
  imagePullPolicy : String
  command : List String
  args : List String
  volumeMounts : List VolumeMount
  volumeDevices : List VolumeDevice
  env : List (String × String)
  envFrom : List String
  resources : ResourceRequirements
deriving DecidableEq

structure Pod where
  name : String
  ns : String
  ownerReferences : List OwnerReference
  labels : List (String × String)
  annotations : List (String × String)
  topologySpreadConstraints : List TopologySpreadConstraint
  nodeSelector : List (String × String)
  osName : String
  affinity : Option Affinity
  containers : List Container
  serviceAccountName : String
  terminationGracePeriodSeconds : Nat
  volumes : List PodVolume
  restartPolicy : String
  securityContext : SecurityContext
  tolerations : List Toleration
  dnsPolicy : String
  dnsConfig : Option String
deriving DecidableEq

/-- A persistent volume, recorded with the claim it is bound to. -/
structure PV where
  name : String
  claimNs : String
  claimName : String
deriving DecidableEq

/-- Modelled from the spec: the pod template fragments returned by the
node-agent info provider (getInheritedPodInfo is not part of src/). -/
structure PodInfo where
  image : String
  volumes : List PodVolume
  volumeMounts : List VolumeMount
  env : List (String × String)
  envFrom : List String
  serviceAccount : String
  dnsPolicy : String
  dnsConfig : Option String
  logFormatArgs : List String
  logLevelArgs : List String
deriving DecidableEq

/-- nodeagent.BackupPVC: the per-storage-class remap entry. -/
structure BackupPVCCfg where
  storageClass : String
  readOnly : Bool
  spcNoRelabeling : Bool
deriving DecidableEq

structure CSISnapshotExposeParam where
  snapshotName : String
  sourceNamespace : String
  accessMode : String
  storageClass : String
  hostingPodLabels : List (String × String)
  hostingPodAnnotations : List (String × String)
  operationTimeout : Nat
  exposeTimeout : Nat
  volumeSize : Quantity
  affinity : Option LoadAffinity
  backupPVCConfig : List (String × BackupPVCCfg)
  resources : ResourceRequirements
  nodeOS : String
deriving DecidableEq

/- Association-list helpers for the object store. -/

def alFind {κ α : Type} [DecidableEq κ] (k : κ) : List (κ × α) → Option α
  | [] => none
  | e :: rest => if e.1 = k then some e.2 else alFind k rest

def alErase {κ α : Type} [DecidableEq κ] (k : κ) : List (κ × α) → List (κ × α)
  | [] => []
  | e :: rest => if e.1 = k then alErase k rest else e :: alErase k rest

def alInsert {κ α : Type} [DecidableEq κ] (k : κ) (v : α) (l : List (κ × α)) :
    List (κ × α) :=
  (k, v) :: alErase k l

def pvBoundTo (ns name : String) (pv : PV) : Bool :=
  decide (pv.claimNs = ns ∧ pv.claimName = name)

def erasePVs (ns name : String) : List PV → List PV
  | [] => []
  | pv :: rest =>
    if pvBoundTo ns name pv then erasePVs ns name rest
    else pv :: erasePVs ns name rest

def noPVBoundTo (ns name : String) (l : List PV) : Bool :=
  l.all (fun pv => !(pvBoundTo ns name pv))

/-- The cluster store: volume snapshots and claims keyed by
(namespace, name); contents (cluster-scoped) keyed by name. -/
structure Store where
  snapshots : List ((String × String) × VolumeSnapshot)
  contents : List (String × VolumeSnapshotContent)
  pvcs : List ((String × String) × PVC)
  pods : List ((String × String) × Pod)
  pvs : List PV
deriving DecidableEq

/- Constants.  The ones defined outside csi_snapshot.go (in types.go and
util/kube, absent from src/) are modelled from the spec; their exact
string values are irrelevant to every claim. -/

/-- Modelled from the spec: access-mode constant from the exposer interface. -/
def AccessModeFileSystem : String := "by-file-system"

/-- Modelled from the spec: access-mode constant from the exposer interface. -/
def AccessModeBlock : String := "by-block"

/-- Modelled from the spec: the exposer group label key (types.go). -/
def podGroupLabel : String := "velero.io/exposer-pod-group"

/-- Modelled from the spec: the snapshot-exposer group label value. -/
def podGroupSnapshot : String := "snapshot-exposer"

/-- Modelled from the spec: kube.NodeOSLabel. -/
def nodeOSLabel : String := "kubernetes.io/os"

/-- Modelled from the spec: kube.NodeOSWindows. -/
def nodeOSWindows : String := "windows"

/-- Modelled from the spec: kube.NodeOSLinux. -/
def nodeOSLinux : String := "linux"

def snapshotAPIGroup : String := "snapshot.storage.k8s.io"

/-- getVolumeModeByAccessMode, csi_snapshot.go lines 403-412. -/
def getVolumeModeByAccessMode (accessMode : String) : Except String VolumeMode :=
  if accessMode = AccessModeFileSystem then Except.ok VolumeMode.filesystem
  else if accessMode = AccessModeBlock then Except.ok VolumeMode.block
  else Except.error ("unsupported access mode " ++ accessMode)

/-- createBackupVS object construction, lines 414-433: name = owner name,
no owner references (deliberate, see the code comment), source directly
referencing the backup VSC name (= owner name). -/
def mkBackupVS (owner : ObjectReference) (snapshotVS : VolumeSnapshot) :
    VolumeSnapshot :=
  { name := owner.name
    ns := owner.ns
    uid := ""
    resourceVersion := ""
    annotations := snapshotVS.annotations
    ownerReferences := []
    sourceContentName := some owner.name
    volumeSnapshotClassName := snapshotVS.volumeSnapshotClassName
    status := none }

/-- createBackupVSC object construction, lines 438-462: name = owner name,
snapshot handle copied from the source content status, driver copied,
deletion policy Delete, snapshot ref pointing at the backup VS. -/
def mkBackupVSC (owner : ObjectReference) (snapshotVSC : VolumeSnapshotContent)
    (vs : VolumeSnapshot) : VolumeSnapshotContent :=
  { name := owner.name
    annotations := snapshotVSC.annotations
    driver := snapshotVSC.driver
    sourceSnapshotHandle := snapshotVSC.statusSnapshotHandle
    statusSnapshotHandle := none
    deletionPolicy := DeletionPolicy.delete
    volumeSnapshotClassName := snapshotVSC.volumeSnapshotClassName
    volumeSnapshotRef :=
      { name := vs.name, ns := vs.ns, uid := vs.uid
        resourceVersion := vs.resourceVersion } }

/-- createBackupPVC object construction, lines 465-522. -/
def mkBackupPVC (owner : ObjectReference) (backupVS storageClass accessMode : String)
    (size : Quantity) (readOnly : Bool) : Except String PVC :=
  match getVolumeModeByAccessMode accessMode with
  | Except.error e => Except.error e
  | Except.ok volumeMode =>
    Except.ok
      { name := owner.name
        ns := owner.ns
        ownerReferences :=
          [{ apiVersion := owner.apiVersion, kind := owner.kind
             name := owner.name, uid := owner.uid, controller := true }]
        accessModes := [if readOnly then AccessMode.readOnlyMany else AccessMode.readWriteOnce]
        storageClassName := storageClass
        volumeMode := some volumeMode
        dataSource := some
          { apiGroup := some snapshotAPIGroup, kind := "VolumeSnapshot", name := backupVS }
        dataSourceRef := none
        requestStorage := size }

structure PVCAttachment where
  mounts : List VolumeMount
  devices : List VolumeDevice
  path : String
deriving DecidableEq

/-- Modelled from the spec: kube.MakePodPVCAttachment (not in src/) —
a block-mode volume is attached as a device, anything else as a mount. -/
def makePodPVCAttachment (volumeName : String) (volumeMode : Option VolumeMode)
    (readOnly : Bool) : PVCAttachment :=
  match volumeMode with
  | some VolumeMode.block =>
    { mounts := [], devices := [{ name := volumeName, devicePath := "/" ++ volumeName }]
      path := "/" ++ volumeName }
  | _ =>
    { mounts := [{ name := volumeName, mountPath := "/" ++ volumeName, readOnly := readOnly }]
      devices := [], path := "/" ++ volumeName }

def volumeModeString : VolumeMode → String
  | VolumeMode.filesystem => "Filesystem"
  | VolumeMode.block => "Block"

/-- Duration rendered for the pod args; seconds granularity suffices here. -/
def durationString (d : Nat) : String := toString d ++ "s"

/-- Modelled from the spec: kube.ToSystemAffinity (not in src/), kept as an
opaque wrapper of the load-affinity hints. -/
def toSystemAffinity (l : List LoadAffinity) : Affinity := { sources := l }

/-- createBackupPod object construction, lines 524-690 (the Create call and
the getInheritedPodInfo call are factored into the oracle environment). -/
def mkBackupPod (owner : ObjectReference) (backupPVC : PVC) (operationTimeout : Nat)
    (label annotations : List (String × String)) (affinity : Option LoadAffinity)
    (resources : ResourceRequirements) (backupPVCReadOnly spcNoRelabeling : Bool)
    (nodeOS : String) (podInfo : PodInfo) : Pod :=
  let containerName := owner.uid
  let volumeName := owner.uid
  let att := makePodPVCAttachment volumeName backupPVC.volumeMode backupPVCReadOnly
  let volumeMounts := att.mounts ++ podInfo.volumeMounts
  let volumes :=
    ({ name := volumeName, pvcClaimName := some backupPVC.name
       pvcReadOnly := backupPVCReadOnly } : PodVolume) :: podInfo.volumes
  let volumeMode :=
    match backupPVC.volumeMode with
    | some m => m
    | none => VolumeMode.filesystem
  let args :=
    ["--volume-path=" ++ att.path,
     "--volume-mode=" ++ volumeModeString volumeMode,
     "--data-upload=" ++ owner.name,
     "--resource-timeout=" ++ durationString operationTimeout]
    ++ podInfo.logFormatArgs ++ podInfo.logLevelArgs
  let securityCtx : SecurityContext :=
    if nodeOS = nodeOSWindows then
      { runAsUser := none, windowsRunAsUserName := some "ContainerAdministrator"
        seLinuxType := none }
    else
      { runAsUser := some 0, windowsRunAsUserName := none
        seLinuxType := if spcNoRelabeling then some "spc_t" else none }
  let nodeSelector :=
    if nodeOS = nodeOSWindows then [(nodeOSLabel, nodeOSWindows)]
    else [(nodeOSLabel, nodeOSLinux)]
  let osName := if nodeOS = nodeOSWindows then nodeOSWindows else nodeOSLinux
  let tolerations :=
    if nodeOS = nodeOSWindows then
      [({ key := "os", operator := "Equal", effect := "NoSchedule"
          value := "windows" } : Toleration)]
    else []
  { name := owner.name
    ns := owner.ns
    ownerReferences :=
      [{ apiVersion := owner.apiVersion, kind := owner.kind
         name := owner.name, uid := owner.uid, controller := true }]
    labels := alInsert podGroupLabel podGroupSnapshot label
    annotations := annotations
    topologySpreadConstraints :=
      [{ maxSkew := 1, topologyKey := "kubernetes.io/hostname"
         whenUnsatisfiable := "ScheduleAnyway"
         matchLabels := [(podGroupLabel, podGroupSnapshot)] }]
    nodeSelector := nodeSelector
    osName := osName
    affinity := affinity.map (fun a => toSystemAffinity [a])
    containers :=
      [{ name := containerName, image := podInfo.image, imagePullPolicy := "Never"
         command := ["/velero", "data-mover", "backup"]
         args := args, volumeMounts := volumeMounts, volumeDevices := att.devices
         env := podInfo.env, envFrom := podInfo.envFrom, resources := resources }]
    serviceAccountName := podInfo.serviceAccount
    terminationGracePeriodSeconds := 0
    volumes := volumes
    restartPolicy := "Never"
    securityContext := securityCtx
    tolerations := tolerations
    dnsPolicy := podInfo.dnsPolicy
    dnsConfig := podInfo.dnsConfig }

/-- Oracle environment for Expose: success/failure of every remote call
issued by Expose whose implementation lives outside this source file
(create/delete/patch calls, the readiness poll, the node-agent query). -/
structure ExposeEnv where
  vsReady : Bool
  createVSOk : Bool
  createVSCOk : Bool
  patchRetainOk : Bool
  deleteSourceVSOk : Bool
  deleteSourceVSCOk : Bool
  createPVCOk : Bool
  podInfo : Option PodInfo
  createPodOk : Bool
deriving DecidableEq

/-- The store calls Expose issues, in order; creates and source deletes
carry the oracle's verdict, the delete-if-present compensations are
best-effort and carry none. -/
inductive StoreOp where
  | createVS (ns : String) (vs : VolumeSnapshot) (ok : Bool)
  | createVSC (vsc : VolumeSnapshotContent) (ok : Bool)
  | retainVSC (name : String) (ok : Bool)
  | deleteSourceVS (ns name : String) (ok : Bool)
  | deleteSourceVSC (name : String) (ok : Bool)
  | createPVC (pvc : PVC) (ok : Bool)
  | createPod (pod : Pod) (ok : Bool)
  | deleteVSIfAny (ns name : String)
  | deletePVAndPVCIfAny (ns name : String)
  | deletePodIfAny (ns name : String)
deriving DecidableEq

structure ExposeOutcome where
  err : Option String
  store : Store
  ops : List StoreOp
deriving DecidableEq

/-- Lines 181-197: effective storage class after the backupPVC remap. -/
def resolvedBackupPVCStorageClass (p : CSISnapshotExposeParam) : String :=
  match alFind p.storageClass p.backupPVCConfig with
  | none => p.storageClass
  | some v => if v.storageClass ≠ "" then v.storageClass else p.storageClass

/-- Lines 181-197: effective read-only flag after the backupPVC remap. -/
def resolvedBackupPVCReadOnly (p : CSISnapshotExposeParam) : Bool :=
  match alFind p.storageClass p.backupPVCConfig with
  | none => false
  | some v => v.readOnly

/-- Lines 181-197: spcNoRelabeling is honored only for a read-only claim;
for a read-write claim it is ignored with a warning. -/
def resolvedSpcNoRelabeling (p : CSISnapshotExposeParam) : Bool :=
  match alFind p.storageClass p.backupPVCConfig with
  | none => false
  | some v => if v.spcNoRelabeling then (if v.readOnly then true else false) else false

/-- Lines 170-176: prefer the snapshot's restore size when present and
non-zero, else fall back to the caller-requested volume size. -/
def exposeVolumeSize (svs : VolumeSnapshot) (fallback : Quantity) : Quantity :=
  match svs.status with
  | some st =>
    match st.restoreSize with
    | some q => if q = 0 then fallback else q
    | none => fallback
  | none => fallback

/-- Modelled from the spec: kube.DeletePVAndPVCIfAny (not in src/) —
delete-if-present of the claim and of any volume bound to it. -/
def storeDeletePVAndPVC (ns name : String) (s : Store) : Store :=
  { s with pvcs := alErase (ns, name) s.pvcs, pvs := erasePVs ns name s.pvs }

/-- Modelled from the spec: csi.DeleteVolumeSnapshotIfAny (not in src/). -/
def storeDeleteVS (ns name : String) (s : Store) : Store :=
  { s with snapshots := alErase (ns, name) s.snapshots }

/-- Modelled from the spec: kube.DeletePodIfAny (not in src/). -/
def storeDeletePod (ns name : String) (s : Store) : Store :=
  { s with pods := alErase (ns, name) s.pods }

def storeInsertVS (vs : VolumeSnapshot) (s : Store) : Store :=
  { s with snapshots := alInsert (vs.ns, vs.name) vs s.snapshots }

def storeInsertVSC (c : VolumeSnapshotContent) (s : Store) : Store :=
  { s with contents := alInsert c.name c s.contents }

def storeEraseVSC (n : String) (s : Store) : Store :=
  { s with contents := alErase n s.contents }

def storeInsertPVC (c : PVC) (s : Store) : Store :=
  { s with pvcs := alInsert (c.ns, c.name) c s.pvcs }

def storeInsertPod (pod : Pod) (s : Store) : Store :=
  { s with pods := alInsert (pod.ns, pod.name) pod s.pods }

/-- Lines 211-234: fetch the inherited pod info and create the backup pod.
Error exits leave the store untouched; the caller appends compensations. -/
def exposePod (owner : ObjectReference) (p : CSISnapshotExposeParam)
    (env : ExposeEnv) (s : Store) (bpvc : PVC) (ro spc : Bool) : ExposeOutcome :=
  match env.podInfo with
  | none => { err := some "error to get inherited pod info from node-agent", store := s, ops := [] }
  | some info =>
    let pod := mkBackupPod owner bpvc p.operationTimeout p.hostingPodLabels
      p.hostingPodAnnotations p.affinity p.resources ro spc p.nodeOS info
    if env.createPodOk then
      { err := none
        store := storeInsertPod pod s
        ops := [StoreOp.createPod pod true] }
    else
      { err := some "error to create backup pod", store := s
        ops := [StoreOp.createPod pod false] }

/-- Lines 170-209: volume-size resolution, backupPVC remap, claim creation,
then the pod phase; on a pod-phase error the deferred compensation of
lines 205-209 (delete claim and its volume) fires. -/
def exposeSizeAndPVC (owner : ObjectReference) (p : CSISnapshotExposeParam)
    (env : ExposeEnv) (s : Store) (svs bvs : VolumeSnapshot) : ExposeOutcome :=
  let volumeSize := exposeVolumeSize svs p.volumeSize
  match mkBackupPVC owner bvs.name (resolvedBackupPVCStorageClass p) p.accessMode
      volumeSize (resolvedBackupPVCReadOnly p) with
  | Except.error e => { err := some e, store := s, ops := [] }
  | Except.ok pvcObj =>
    if env.createPVCOk then
      let r := exposePod owner p env (storeInsertPVC pvcObj s) pvcObj
        (resolvedBackupPVCReadOnly p) (resolvedSpcNoRelabeling p)
      match r.err with
      | none => { r with ops := StoreOp.createPVC pvcObj true :: r.ops }
      | some e =>
        { err := some e
          store := storeDeletePVAndPVC pvcObj.ns pvcObj.name r.store
          ops := StoreOp.createPVC pvcObj true ::
            (r.ops ++ [StoreOp.deletePVAndPVCIfAny pvcObj.ns pvcObj.name]) }
    else
      { err := some "error to create backup pvc", store := s
        ops := [StoreOp.createPVC pvcObj false] }

/-- Lines 156-168: delete the source snapshot, then the source content,
each gated on success, then continue with the claim/pod phases. -/
def exposeAfterRetain (owner : ObjectReference) (p : CSISnapshotExposeParam)
    (env : ExposeEnv) (s : Store) (svs : VolumeSnapshot)
    (vsc : VolumeSnapshotContent) (bvs : VolumeSnapshot) : ExposeOutcome :=
  if env.deleteSourceVSOk then
    if env.deleteSourceVSCOk then
      let r := exposeSizeAndPVC owner p env
        (storeEraseVSC vsc.name (storeDeleteVS svs.ns svs.name s)) svs bvs
      { r with ops := StoreOp.deleteSourceVS svs.ns svs.name true ::
          StoreOp.deleteSourceVSC vsc.name true :: r.ops }
    else
      { err := some "error to delete volume snapshot content"
        store := storeDeleteVS svs.ns svs.name s
        ops := [StoreOp.deleteSourceVS svs.ns svs.name true,
                StoreOp.deleteSourceVSC vsc.name false] }
  else
    { err := some "error to delete volume snapshot", store := s
      ops := [StoreOp.deleteSourceVS svs.ns svs.name false] }

/-- Lines 142-168 continued: create the backup VSC, then RetainVSC on the
source content (modelled from the spec: csi.RetainVSC is idempotent — a
content already at Retain is a no-op success, otherwise a patch that may
fail), then the source deletions and the later phases. -/
def exposeAfterVS (owner : ObjectReference) (p : CSISnapshotExposeParam)
    (env : ExposeEnv) (s : Store) (svs : VolumeSnapshot)
    (vsc : VolumeSnapshotContent) (bvs : VolumeSnapshot) : ExposeOutcome :=
  let bvsc := mkBackupVSC owner vsc bvs
  if env.createVSCOk then
    if vsc.deletionPolicy = DeletionPolicy.retain then
      let r := exposeAfterRetain owner p env (storeInsertVSC bvsc s) svs vsc bvs
      { r with ops := StoreOp.createVSC bvsc true ::
          StoreOp.retainVSC vsc.name true :: r.ops }
    else if env.patchRetainOk then
      let retained := { vsc with deletionPolicy := DeletionPolicy.retain }
      let r := exposeAfterRetain owner p env
        (storeInsertVSC retained (storeInsertVSC bvsc s)) svs vsc bvs
      { r with ops := StoreOp.createVSC bvsc true ::
          StoreOp.retainVSC vsc.name true :: r.ops }
    else
      { err := some "error to retain volume snapshot content"
        store := storeInsertVSC bvsc s
        ops := [StoreOp.createVSC bvsc true, StoreOp.retainVSC vsc.name false] }
  else
    { err := some "error to create backup volume snapshot content", store := s
      ops := [StoreOp.createVSC bvsc false] }

/-- Expose, lines 106-237.  The readiness wait and the content resolution
come first; the backup VS create is the first mutation; every later
failure triggers the deferred deletion of the backup VS (lines 136-140),
run after the inner compensations, matching Go's LIFO defer order. -/
def expose (owner : ObjectReference) (p : CSISnapshotExposeParam)
    (env : ExposeEnv) (s0 : Store) : ExposeOutcome :=
  match alFind (p.sourceNamespace, p.snapshotName) s0.snapshots, env.vsReady with
  | some svs, true =>
    match svs.status with
    | none => { err := some "error to get volume snapshot content", store := s0, ops := [] }
    | some st =>
      match st.boundVolumeSnapshotContentName with
      | none => { err := some "error to get volume snapshot content", store := s0, ops := [] }
      | some vscName =>
        match alFind vscName s0.contents with
        | none => { err := some "error to get volume snapshot content", store := s0, ops := [] }
        | some vsc =>
          let bvs := mkBackupVS owner svs
          if env.createVSOk then
            let r := exposeAfterVS owner p env (storeInsertVS bvs s0) svs vsc bvs
            match r.err with
            | none =>
              { err := none, store := r.store
                ops := StoreOp.createVS owner.ns bvs true :: r.ops }
            | some e =>
              { err := some e
                store := storeDeleteVS bvs.ns bvs.name r.store
                ops := StoreOp.createVS owner.ns bvs true ::
                  (r.ops ++ [StoreOp.deleteVSIfAny bvs.ns bvs.name]) }
          else
            { err := some "error to create backup volume snapshot", store := s0
              ops := [StoreOp.createVS owner.ns bvs false] }
  | _, _ => { err := some "error wait volume snapshot ready", store := s0, ops := [] }

/-- Result of a node-local pod lookup; not-found is distinguished from any
other lookup failure, mirroring apierrors.IsNotFound branching. -/
inductive PodGetResult where
  | notFound
  | otherError (msg : String)
  | found (pod : Pod)
deriving DecidableEq

structure GetExposedEnv where
  podGet : PodGetResult
  pvcBoundOk : Bool
deriving DecidableEq

structure ExposeByPod where
  hostingPod : Pod
  hostingContainer : String
  volumeName : String
  nodeOS : Option String
deriving DecidableEq

/-- GetExposed, lines 239-299: pod not found on this node is (nil, nil);
any other lookup failure is (nil, err); then wait for the claim to bind,
locate the deterministic volume entry, and read the node OS label. -/
def getExposed (owner : ObjectReference) (env : GetExposedEnv) :
    Option ExposeByPod × Option String :=
  let backupPodName := owner.name
  let backupPVCName := owner.name
  let containerName := owner.uid
  let volumeName := owner.uid
  match env.podGet with
  | PodGetResult.notFound => (none, none)
  | PodGetResult.otherError msg =>
    (none, some ("error to get backup pod " ++ backupPodName ++ ": " ++ msg))
  | PodGetResult.found pod =>
    if env.pvcBoundOk then
      match pod.volumes.find? (fun v => v.name = volumeName) with
      | none =>
        (none, some ("backup pod " ++ pod.name ++ " doesn't have the expected backup volume"))
      | some _ =>
        (some { hostingPod := pod, hostingContainer := containerName
                volumeName := volumeName, nodeOS := alFind nodeOSLabel pod.nodeSelector },
         none)
    else (none, some ("error to wait backup PVC bound, " ++ backupPVCName))

structure PeekExposedEnv where
  podGet : PodGetResult
  isPodUnrecoverable : Pod → Bool × String

/-- PeekExposed, lines 301-323: not-found and any other fetch error both
yield nil; a pod classified unrecoverable yields the classifier's message
as the error. -/
def peekExposed (owner : ObjectReference) (env : PeekExposedEnv) : Option String :=
  let _ := owner.name
  match env.podGet with
  | PodGetResult.notFound => none
  | PodGetResult.otherError _ => none
  | PodGetResult.found pod =>
    let r := env.isPodUnrecoverable pod
    if r.1 then some r.2 else none

/-- CleanUp, lines 389-401: unconditional delete-if-present of the hosting
pod, the claim plus its volume, the backup snapshot, and the source
snapshot under the caller-supplied name/namespace.  No error is produced:
the return type is just the store. -/
def cleanUp (owner : ObjectReference) (vsName sourceNamespace : String)
    (s : Store) : Store :=
  storeDeleteVS sourceNamespace vsName
    (storeDeleteVS owner.ns owner.name
      (storeDeletePVAndPVC owner.ns owner.name
        (storeDeletePod owner.ns owner.name s)))

/-- The deletion calls CleanUp issues, in source order. -/
def cleanUpOps (owner : ObjectReference) (vsName sourceNamespace : String) :
    List StoreOp :=
  [StoreOp.deletePodIfAny owner.ns owner.name,
   StoreOp.deletePVAndPVCIfAny owner.ns owner.name,
   StoreOp.deleteVSIfAny owner.ns owner.name,
   StoreOp.deleteVSIfAny sourceNamespace vsName]

/-- Does this op delete the volume snapshot content named n?  Used to state
that Expose never deletes the derived content. -/
def opDeletesContentNamed (n : String) (op : StoreOp) : Bool :=
  match op with
  | StoreOp.deleteSourceVSC m _ => decide (m = n)
  | _ => false

/-- Scan for the retain-before-delete discipline: a source-content delete
for n may only appear after a successful retain call for n. -/
def retainBeforeDeleteOk (n : String) : List StoreOp → Bool
  | [] => true
  | StoreOp.retainVSC m true :: rest =>
    if m = n then true else retainBeforeDeleteOk n rest
  | StoreOp.deleteSourceVSC m _ :: rest =>
    if m = n then false else retainBeforeDeleteOk n rest
  | _ :: rest => retainBeforeDeleteOk n rest

/- Concrete fixtures used by counterexamples and witnesses. -/

def ownerEx : ObjectReference :=
  { ns := "v", name := "o", uid := "u", apiVersion := "velero.io/v2alpha1"
    kind := "DataUpload" }

def svsEx : VolumeSnapshot :=
  { name := "s", ns := "a", uid := "su", resourceVersion := "1"
    annotations := [], ownerReferences := [], sourceContentName := none
    volumeSnapshotClassName := some "cl"
    status := some { boundVolumeSnapshotContentName := some "c", restoreSize := some 12 } }

def vscEx : VolumeSnapshotContent :=
  { name := "c", annotations := [], driver := "d"
    sourceSnapshotHandle := none, statusSnapshotHandle := some "h"
    deletionPolicy := DeletionPolicy.delete
    volumeSnapshotClassName := some "cl"
    volumeSnapshotRef := { name := "s", ns := "a", uid := "su", resourceVersion := "1" } }

def infoEx : PodInfo :=
  { image := "img", volumes := [], volumeMounts := [], env := [], envFrom := []
    serviceAccount := "sa", dnsPolicy := "ClusterFirst", dnsConfig := none
    logFormatArgs := [], logLevelArgs := [] }

def resEx : ResourceRequirements := { requests := [], limits := [] }

def pEx : CSISnapshotExposeParam :=
  { snapshotName := "s", sourceNamespace := "a", accessMode := AccessModeFileSystem
    storageClass := "sc", hostingPodLabels := [], hostingPodAnnotations := []
    operationTimeout := 30, exposeTimeout := 60, volumeSize := 10
    affinity := none, backupPVCConfig := [], resources := resEx
    nodeOS := "linux" }

def storeEx : Store :=
  { snapshots := [(("a", "s"), svsEx)], contents := [("c", vscEx)]
    pvcs := [], pods := [], pvs := [] }

def envAllOkEx : ExposeEnv :=
  { vsReady := true, createVSOk := true, createVSCOk := true, patchRetainOk := true
    deleteSourceVSOk := true, deleteSourceVSCOk := true, createPVCOk := true
    podInfo := some infoEx, createPodOk := true }

def envPVCFailEx : ExposeEnv := { envAllOkEx with createPVCOk := false }

def envDelVSCFailEx : ExposeEnv := { envAllOkEx with deleteSourceVSCOk := false }

/-- The claim object the fixture run builds before the injected PVC-create
failure. -/
def pvcWitEx : PVC :=
  { name := "o", ns := "v"
    ownerReferences :=
      [{ apiVersion := "velero.io/v2alpha1", kind := "DataUpload", name := "o"
         uid := "u", controller := true }]
    accessModes := [AccessMode.readWriteOnce]
    storageClassName := "sc"
    volumeMode := some VolumeMode.filesystem
    dataSource := some
      { apiGroup := some snapshotAPIGroup, kind := "VolumeSnapshot", name := "o" }
    dataSourceRef := none
    requestStorage := 12 }

/-- Remap parameters whose matched entry has ReadOnly and SkipRelabel both
set, with a Windows node OS. -/
def pExC4 : CSISnapshotExposeParam :=
  { pEx with nodeOS := "windows"
             backupPVCConfig :=
               [("sc", { storageClass := "", readOnly := true, spcNoRelabeling := true })] }

/-- Remap parameters whose matched entry has ReadOnly false and SkipRelabel
set. -/
def pExC4rw : CSISnapshotExposeParam :=
  { pEx with backupPVCConfig :=
      [("sc", { storageClass := "", readOnly := false, spcNoRelabeling := true })] }

def pvcEx : PVC :=
  { name := "o", ns := "v", ownerReferences := [], accessModes := [AccessMode.readOnlyMany]
    storageClassName := "sc", volumeMode := some VolumeMode.filesystem
    dataSource := none, dataSourceRef := none, requestStorage := 12 }

/-- Ops with no source-content delete at all. -/
def opIsNotSourceContentDelete (op : StoreOp) : Bool :=
  match op with
  | StoreOp.deleteSourceVSC _ _ => false
  | _ => true

/-- Remap parameters with a matched ReadOnly+SkipRelabel entry on a Linux
node OS. -/
def pExC4ro : CSISnapshotExposeParam :=
  { pEx with backupPVCConfig :=
      [("sc", { storageClass := "", readOnly := true, spcNoRelabeling := true })] }

/- Association-list lemmas. -/

theorem alFind_insert_self {κ α : Type} [DecidableEq κ] (k : κ) (v : α)
    (l : List (κ × α)) : alFind k (alInsert k v l) = some v := by
  simp [alInsert, alFind]

theorem alFind_erase_self {κ α : Type} [DecidableEq κ] (k : κ)
    (l : List (κ × α)) : alFind k (alErase k l) = none := by
  induction l with
  | nil => rfl
  | cons e rest ih =>
    by_cases h : e.1 = k
    · simp [alErase, h, ih]
    · simp [alErase, h, alFind, ih]

theorem alFind_erase_ne {κ α : Type} [DecidableEq κ] {k k' : κ}
    (l : List (κ × α)) (h : k ≠ k') : alFind k (alErase k' l) = alFind k l := by
  have hkk : ¬(k' = k) := fun hh => h hh.symm
  induction l with
  | nil => rfl
  | cons e rest ih =>
    by_cases he : e.1 = k'
    · have hek : ¬(e.1 = k) := by
        rw [he]
        exact hkk
      simp [alErase, he, alFind, hek, hkk, ih]
    · by_cases hk : e.1 = k
      · simp [alErase, he, alFind, hk, h]
      · simp [alErase, he, alFind, hk, h, ih]

theorem alFind_insert_ne {κ α : Type} [DecidableEq κ] {k k' : κ} (v : α)
    (l : List (κ × α)) (h : k ≠ k') : alFind k (alInsert k' v l) = alFind k l := by
  have h' : ¬(k' = k) := fun hh => h hh.symm
  simp [alInsert, alFind, h', alFind_erase_ne l h]

theorem alFind_erase_none {κ α : Type} [DecidableEq κ] {k : κ} (k' : κ)
    {l : List (κ × α)} (h : alFind k l = none) :
    alFind k (alErase k' l) = none := by
  by_cases hk : k = k'
  · subst hk
    exact alFind_erase_self k l
  · rw [alFind_erase_ne l hk]
    exact h

theorem alErase_idem {κ α : Type} [DecidableEq κ] (k : κ) (l : List (κ × α)) :
    alErase k (alErase k l) = alErase k l := by
  induction l with
  | nil => rfl
  | cons e rest ih =>
    by_cases h : e.1 = k
    · simp [alErase, h, ih]
    · simp [alErase, h, ih]

theorem alErase_comm {κ α : Type} [DecidableEq κ] (k1 k2 : κ)
    (l : List (κ × α)) :
    alErase k1 (alErase k2 l) = alErase k2 (alErase k1 l) := by
  induction l with
  | nil => rfl
  | cons e rest ih =>
    by_cases h1 : e.1 = k1
    · by_cases h2 : e.1 = k2
      · have h12 : k1 = k2 := h1.symm.trans h2
        simp [alErase, h1, h2, h12, ih]
      · have h12 : ¬(k1 = k2) := fun hh => h2 (h1.trans hh)
        simp [alErase, h1, h2, h12, ih]
    · by_cases h2 : e.1 = k2
      · have h21 : ¬(k2 = k1) := fun hh => h1 (h2.trans hh)
        simp [alErase, h1, h2, h21, ih]
      · simp [alErase, h1, h2, ih]

theorem alErase_absorb {κ α : Type} [DecidableEq κ] (k1 k2 : κ)
    (l : List (κ × α)) :
    alErase k1 (alErase k2 (alErase k1 l)) = alErase k2 (alErase k1 l) := by
  rw [alErase_comm k1 k2, alErase_idem]

theorem noPVBoundTo_erasePVs (ns name : String) (l : List PV) :
    noPVBoundTo ns name (erasePVs ns name l) = true := by
  induction l with
  | nil => rfl
  | cons pv rest ih =>
    by_cases h : pvBoundTo ns name pv = true
    · simp [erasePVs, h, ih]
    · have h' : pvBoundTo ns name pv = false := by
        cases hb : pvBoundTo ns name pv
        · rfl
        · exact absurd hb h
      simp [erasePVs, h', noPVBoundTo, List.all_cons] at ih ⊢
      exact ih

theorem noPVBoundTo_preserved {ns name : String} (ns' name' : String)
    {l : List PV} (h : noPVBoundTo ns name l = true) :
    noPVBoundTo ns name (erasePVs ns' name' l) = true := by
  induction l with
  | nil => rfl
  | cons pv rest ih =>
    simp [noPVBoundTo, List.all_cons] at h
    obtain ⟨h1, h2⟩ := h
    have ih' := ih (by simp [noPVBoundTo]; exact h2)
    by_cases hb : pvBoundTo ns' name' pv = true
    · simpa [erasePVs, hb] using ih'
    · have hb' : pvBoundTo ns' name' pv = false := by
        cases hx : pvBoundTo ns' name' pv
        · rfl
        · exact absurd hx hb
      simp [erasePVs, hb', noPVBoundTo, List.all_cons, h1]
      simpa [noPVBoundTo] using ih'

theorem erasePVs_idem (ns name : String) (l : List PV) :
    erasePVs ns name (erasePVs ns name l) = erasePVs ns name l := by
  induction l with
  | nil => rfl
  | cons pv rest ih =>
    by_cases h : pvBoundTo ns name pv = true
    · simp [erasePVs, h, ih]
    · have h' : pvBoundTo ns name pv = false := by
        cases hx : pvBoundTo ns name pv
        · rfl
        · exact absurd hx h
      simp [erasePVs, h', ih]

/- Field characterization of the claim built by createBackupPVC. -/

theorem mkBackupPVC_ok_fields {owner : ObjectReference} {bvsName sc am : String}
    {size : Quantity} {ro : Bool} {pvcObj : PVC}
    (h : mkBackupPVC owner bvsName sc am size ro = Except.ok pvcObj) :
    pvcObj.name = owner.name ∧ pvcObj.ns = owner.ns ∧
    pvcObj.requestStorage = size ∧
    pvcObj.accessModes = [if ro then AccessMode.readOnlyMany else AccessMode.readWriteOnce] ∧
    pvcObj.storageClassName = sc ∧
    pvcObj.ownerReferences =
      [{ apiVersion := owner.apiVersion, kind := owner.kind, name := owner.name
         uid := owner.uid, controller := true }] := by
  rcases hvm : getVolumeModeByAccessMode am with e | vm
  · simp [mkBackupPVC, hvm] at h
  · simp [mkBackupPVC, hvm] at h
    subst h
    simp

/- Per-layer facts about the trace of Expose. -/

theorem exposePod_ops_all (owner : ObjectReference) (p : CSISnapshotExposeParam)
    (env : ExposeEnv) (s : Store) (bpvc : PVC) (ro spc : Bool) (g : StoreOp → Bool)
    (hPod : ∀ pod b, g (StoreOp.createPod pod b) = true) :
    (exposePod owner p env s bpvc ro spc).ops.all g = true := by
  rcases hpi : env.podInfo with _ | info
  · simp [exposePod, hpi]
  · cases hcp : env.createPodOk <;> simp [exposePod, hpi, hcp, hPod]

theorem exposeSizeAndPVC_ops_all (owner : ObjectReference)
    (p : CSISnapshotExposeParam) (env : ExposeEnv) (s : Store)
    (svs bvs : VolumeSnapshot) (g : StoreOp → Bool)
    (hPVC : ∀ v b, g (StoreOp.createPVC v b) = true)
    (hPod : ∀ pod b, g (StoreOp.createPod pod b) = true)
    (hDel : ∀ a c, g (StoreOp.deletePVAndPVCIfAny a c) = true) :
    (exposeSizeAndPVC owner p env s svs bvs).ops.all g = true := by
  rcases hm : mkBackupPVC owner bvs.name (resolvedBackupPVCStorageClass p)
      p.accessMode (exposeVolumeSize svs p.volumeSize)
      (resolvedBackupPVCReadOnly p) with e | pvcObj
  · simp [exposeSizeAndPVC, hm]
  · cases hc : env.createPVCOk
    · simp [exposeSizeAndPVC, hm, hc, hPVC]
    · rcases hpi : env.podInfo with _ | info
      · simp [exposeSizeAndPVC, hm, hc, exposePod, hpi, hPVC, hPod, hDel,
          List.all_append]
      · cases hcp : env.createPodOk <;>
          simp [exposeSizeAndPVC, hm, hc, exposePod, hpi, hcp, hPVC, hPod, hDel,
            List.all_append]

theorem exposeAfterRetain_ops_all (owner : ObjectReference)
    (p : CSISnapshotExposeParam) (env : ExposeEnv) (s : Store)
    (svs : VolumeSnapshot) (vsc : VolumeSnapshotContent) (bvs : VolumeSnapshot)
    (g : StoreOp → Bool)
    (hPVC : ∀ v b, g (StoreOp.createPVC v b) = true)
    (hPod : ∀ pod b, g (StoreOp.createPod pod b) = true)
    (hDel : ∀ a c, g (StoreOp.deletePVAndPVCIfAny a c) = true)
    (hDvs : ∀ a c b, g (StoreOp.deleteSourceVS a c b) = true)
    (hDvsc : ∀ b, g (StoreOp.deleteSourceVSC vsc.name b) = true) :
    (exposeAfterRetain owner p env s svs vsc bvs).ops.all g = true := by
  cases hdvs : env.deleteSourceVSOk
  · simp [exposeAfterRetain, hdvs, hDvs]
  · cases hdvsc : env.deleteSourceVSCOk
    · simp [exposeAfterRetain, hdvs, hdvsc, hDvs, hDvsc]
    · simp only [exposeAfterRetain, hdvs, hdvsc, if_true, List.all_cons]
      simp [hDvs, hDvsc,
        exposeSizeAndPVC_ops_all owner p env _ svs bvs g hPVC hPod hDel]

theorem exposeAfterVS_ops_all (owner : ObjectReference)
    (p : CSISnapshotExposeParam) (env : ExposeEnv) (s : Store)
    (svs : VolumeSnapshot) (vsc : VolumeSnapshotContent) (bvs : VolumeSnapshot)
    (g : StoreOp → Bool)
    (hPVC : ∀ v b, g (StoreOp.createPVC v b) = true)
    (hPod : ∀ pod b, g (StoreOp.createPod pod b) = true)
    (hDel : ∀ a c, g (StoreOp.deletePVAndPVCIfAny a c) = true)
    (hDvs : ∀ a c b, g (StoreOp.deleteSourceVS a c b) = true)
    (hDvsc : ∀ b, g (StoreOp.deleteSourceVSC vsc.name b) = true)
    (hVSC : ∀ v b, g (StoreOp.createVSC v b) = true)
    (hRet : ∀ m b, g (StoreOp.retainVSC m b) = true) :
    (exposeAfterVS owner p env s svs vsc bvs).ops.all g = true := by
  cases hcv : env.createVSCOk
  · simp [exposeAfterVS, hcv, hVSC]
  · by_cases hpol : vsc.deletionPolicy = DeletionPolicy.retain
    · simp [exposeAfterVS, hcv, hpol, hVSC, hRet,
        exposeAfterRetain_ops_all owner p env _ svs vsc bvs g hPVC hPod hDel hDvs hDvsc]
    · cases hpr : env.patchRetainOk
      · simp [exposeAfterVS, hcv, hpol, hpr, hVSC, hRet]
      · simp [exposeAfterVS, hcv, hpol, hpr, hVSC, hRet,
          exposeAfterRetain_ops_all owner p env _ svs vsc bvs g hPVC hPod hDel hDvs hDvsc]

/- Per-layer facts about the store Expose leaves behind on error. -/

theorem exposeSizeAndPVC_err_store (owner : ObjectReference)
    (p : CSISnapshotExposeParam) (env : ExposeEnv) (s : Store)
    (svs bvs : VolumeSnapshot)
    (h : (exposeSizeAndPVC owner p env s svs bvs).err.isSome = true) :
    (exposeSizeAndPVC owner p env s svs bvs).store.contents = s.contents ∧
    (exposeSizeAndPVC owner p env s svs bvs).store.snapshots = s.snapshots ∧
    (exposeSizeAndPVC owner p env s svs bvs).store.pods = s.pods ∧
    (alFind (owner.ns, owner.name) s.pvcs = none →
      alFind (owner.ns, owner.name)
        (exposeSizeAndPVC owner p env s svs bvs).store.pvcs = none) ∧
    (noPVBoundTo owner.ns owner.name s.pvs = true →
      noPVBoundTo owner.ns owner.name
        (exposeSizeAndPVC owner p env s svs bvs).store.pvs = true) := by
  rcases hm : mkBackupPVC owner bvs.name (resolvedBackupPVCStorageClass p)
      p.accessMode (exposeVolumeSize svs p.volumeSize)
      (resolvedBackupPVCReadOnly p) with e | pvcObj
  · simp [exposeSizeAndPVC, hm]
  · obtain ⟨hn, hns, _, _, _, _⟩ := mkBackupPVC_ok_fields hm
    cases hc : env.createPVCOk
    · simp [exposeSizeAndPVC, hm, hc]
    · rcases hpi : env.podInfo with _ | info
      · simp only [exposeSizeAndPVC, hm, hc, exposePod, hpi]
        refine ⟨by simp [storeDeletePVAndPVC, storeInsertPVC],
          by simp [storeDeletePVAndPVC, storeInsertPVC],
          by simp [storeDeletePVAndPVC, storeInsertPVC], fun _ => ?_, fun _ => ?_⟩
        · simp [storeDeletePVAndPVC, storeInsertPVC]
          rw [hns, hn]
          exact alFind_erase_self _ _
        · simp [storeDeletePVAndPVC, storeInsertPVC]
          rw [hns, hn]
          exact noPVBoundTo_erasePVs _ _ _
      · cases hcp : env.createPodOk
        · simp only [exposeSizeAndPVC, hm, hc, exposePod, hpi, hcp]
          refine ⟨by simp [storeDeletePVAndPVC, storeInsertPVC],
            by simp [storeDeletePVAndPVC, storeInsertPVC],
            by simp [storeDeletePVAndPVC, storeInsertPVC], fun _ => ?_, fun _ => ?_⟩
          · simp [storeDeletePVAndPVC, storeInsertPVC]
            rw [hns, hn]
            exact alFind_erase_self _ _
          · simp [storeDeletePVAndPVC, storeInsertPVC]
            rw [hns, hn]
            exact noPVBoundTo_erasePVs _ _ _
        · simp [exposeSizeAndPVC, hm, hc, exposePod, hpi, hcp] at h

theorem exposeAfterRetain_err_store (owner : ObjectReference)
    (p : CSISnapshotExposeParam) (env : ExposeEnv) (s : Store)
    (svs : VolumeSnapshot) (vsc : VolumeSnapshotContent) (bvs : VolumeSnapshot)
    (h : (exposeAfterRetain owner p env s svs vsc bvs).err.isSome = true) :
    (vsc.name ≠ owner.name →
      alFind owner.name (exposeAfterRetain owner p env s svs vsc bvs).store.contents =
        alFind owner.name s.contents) ∧
    (exposeAfterRetain owner p env s svs vsc bvs).store.pods = s.pods ∧
    (alFind (owner.ns, owner.name) s.pvcs = none →
      alFind (owner.ns, owner.name)
        (exposeAfterRetain owner p env s svs vsc bvs).store.pvcs = none) ∧
    (noPVBoundTo owner.ns owner.name s.pvs = true →
      noPVBoundTo owner.ns owner.name
        (exposeAfterRetain owner p env s svs vsc bvs).store.pvs = true) := by
  cases hdvs : env.deleteSourceVSOk
  · simp [exposeAfterRetain, hdvs]
  · cases hdvsc : env.deleteSourceVSCOk
    · simp [exposeAfterRetain, hdvs, hdvsc, storeDeleteVS]
    · have hst : (exposeAfterRetain owner p env s svs vsc bvs).store =
        (exposeSizeAndPVC owner p env
          (storeEraseVSC vsc.name (storeDeleteVS svs.ns svs.name s)) svs bvs).store := by
        simp [exposeAfterRetain, hdvs, hdvsc]
      have hsp : (exposeSizeAndPVC owner p env
          (storeEraseVSC vsc.name (storeDeleteVS svs.ns svs.name s)) svs bvs).err.isSome = true := by
        simpa [exposeAfterRetain, hdvs, hdvsc] using h
      obtain ⟨hc1, hc2, hc3, hc4, hc5⟩ :=
        exposeSizeAndPVC_err_store owner p env _ svs bvs hsp
      refine ⟨fun hne => ?_, ?_, fun h0 => ?_, fun h0 => ?_⟩
      · rw [hst, hc1]
        simp [storeEraseVSC, storeDeleteVS]
        exact alFind_erase_ne _ (fun hh => hne hh.symm)
      · rw [hst, hc3]
        simp [storeEraseVSC, storeDeleteVS]
      · rw [hst]
        apply hc4
        simpa [storeEraseVSC, storeDeleteVS] using h0
      · rw [hst]
        apply hc5
        simpa [storeEraseVSC, storeDeleteVS] using h0

theorem exposeAfterVS_err_store (owner : ObjectReference)
    (p : CSISnapshotExposeParam) (env : ExposeEnv) (s : Store)
    (svs : VolumeSnapshot) (vsc : VolumeSnapshotContent) (bvs : VolumeSnapshot)
    (h : (exposeAfterVS owner p env s svs vsc bvs).err.isSome = true) :
    (exposeAfterVS owner p env s svs vsc bvs).store.pods = s.pods ∧
    (alFind (owner.ns, owner.name) s.pvcs = none →
      alFind (owner.ns, owner.name)
        (exposeAfterVS owner p env s svs vsc bvs).store.pvcs = none) ∧
    (noPVBoundTo owner.ns owner.name s.pvs = true →
      noPVBoundTo owner.ns owner.name
        (exposeAfterVS owner p env s svs vsc bvs).store.pvs = true) ∧
    (vsc.name ≠ owner.name → env.createVSCOk = true →
      alFind owner.name (exposeAfterVS owner p env s svs vsc bvs).store.contents =
        some (mkBackupVSC owner vsc bvs)) := by
  cases hcv : env.createVSCOk
  · simp [exposeAfterVS, hcv]
  · by_cases hpol : vsc.deletionPolicy = DeletionPolicy.retain
    · have hst : (exposeAfterVS owner p env s svs vsc bvs).store =
        (exposeAfterRetain owner p env
          (storeInsertVSC (mkBackupVSC owner vsc bvs) s) svs vsc bvs).store := by
        simp [exposeAfterVS, hcv, hpol]
      have har : (exposeAfterRetain owner p env
          (storeInsertVSC (mkBackupVSC owner vsc bvs) s) svs vsc bvs).err.isSome = true := by
        simpa [exposeAfterVS, hcv, hpol] using h
      obtain ⟨ha1, ha2, ha3, ha4⟩ :=
        exposeAfterRetain_err_store owner p env _ svs vsc bvs har
      refine ⟨?_, fun h0 => ?_, fun h0 => ?_, fun hne _ => ?_⟩
      · rw [hst, ha2]
        simp [storeInsertVSC]
      · rw [hst]
        apply ha3
        simpa [storeInsertVSC] using h0
      · rw [hst]
        apply ha4
        simpa [storeInsertVSC] using h0
      · rw [hst, ha1 hne]
        simp only [storeInsertVSC]
        rw [show (mkBackupVSC owner vsc bvs).name = owner.name from rfl]
        exact alFind_insert_self _ _ _
    · cases hpr : env.patchRetainOk
      · simp only [exposeAfterVS, hcv, hpol, hpr]
        refine ⟨by simp [storeInsertVSC], fun h0 => by simpa [storeInsertVSC] using h0,
          fun h0 => by simpa [storeInsertVSC] using h0, fun hne _ => ?_⟩
        simp [storeInsertVSC]
        rw [show (mkBackupVSC owner vsc bvs).name = owner.name from rfl]
        exact alFind_insert_self _ _ _
      · have hst : (exposeAfterVS owner p env s svs vsc bvs).store =
          (exposeAfterRetain owner p env
            (storeInsertVSC ({ vsc with deletionPolicy := DeletionPolicy.retain })
              (storeInsertVSC (mkBackupVSC owner vsc bvs) s)) svs vsc bvs).store := by
          simp [exposeAfterVS, hcv, hpol, hpr]
        have har : (exposeAfterRetain owner p env
            (storeInsertVSC ({ vsc with deletionPolicy := DeletionPolicy.retain })
              (storeInsertVSC (mkBackupVSC owner vsc bvs) s)) svs vsc bvs).err.isSome = true := by
          simpa [exposeAfterVS, hcv, hpol, hpr] using h
        obtain ⟨ha1, ha2, ha3, ha4⟩ :=
          exposeAfterRetain_err_store owner p env _ svs vsc bvs har
        refine ⟨?_, fun h0 => ?_, fun h0 => ?_, fun hne _ => ?_⟩
        · rw [hst, ha2]
          simp [storeInsertVSC]
        · rw [hst]
          apply ha3
          simpa [storeInsertVSC] using h0
        · rw [hst]
          apply ha4
          simpa [storeInsertVSC] using h0
        · rw [hst, ha1 hne]
          simp only [storeInsertVSC]
          rw [alFind_insert_ne _ _ (fun hh => hne hh.symm)]
          rw [show (mkBackupVSC owner vsc bvs).name = owner.name from rfl]
          exact alFind_insert_self _ _ _

/- Retain-before-delete scan lemmas. -/

theorem retainBeforeDeleteOk_of_all {n : String} {l : List StoreOp}
    (h : l.all opIsNotSourceContentDelete = true) :
    retainBeforeDeleteOk n l = true := by
  induction l with
  | nil => rfl
  | cons op rest ih =>
    rw [List.all_cons, Bool.and_eq_true] at h
    obtain ⟨h1, h2⟩ := h
    cases op with
    | deleteSourceVSC m b => simp [opIsNotSourceContentDelete] at h1
    | retainVSC m ok =>
      cases ok
      · simp only [retainBeforeDeleteOk]
        exact ih h2
      · by_cases hmn : m = n
        · simp [retainBeforeDeleteOk, hmn]
        · simp only [retainBeforeDeleteOk, if_neg hmn]
          exact ih h2
    | createVS a v c =>
      simp only [retainBeforeDeleteOk]
      exact ih h2
    | createVSC v c =>
      simp only [retainBeforeDeleteOk]
      exact ih h2
    | deleteSourceVS a c b =>
      simp only [retainBeforeDeleteOk]
      exact ih h2
    | createPVC v c =>
      simp only [retainBeforeDeleteOk]
      exact ih h2
    | createPod v c =>
      simp only [retainBeforeDeleteOk]
      exact ih h2
    | deleteVSIfAny a c =>
      simp only [retainBeforeDeleteOk]
      exact ih h2
    | deletePVAndPVCIfAny a c =>
      simp only [retainBeforeDeleteOk]
      exact ih h2
    | deletePodIfAny a c =>
      simp only [retainBeforeDeleteOk]
      exact ih h2

theorem retainBeforeDeleteOk_append {n : String} {l1 l2 : List StoreOp}
    (h1 : retainBeforeDeleteOk n l1 = true)
    (h2 : retainBeforeDeleteOk n l2 = true) :
    retainBeforeDeleteOk n (l1 ++ l2) = true := by
  induction l1 with
  | nil => simpa using h2
  | cons op rest ih =>
    cases op with
    | retainVSC m ok =>
      cases ok
      · rw [List.cons_append]
        simp only [retainBeforeDeleteOk] at h1 ⊢
        exact ih h1
      · by_cases hmn : m = n
        · simp [retainBeforeDeleteOk, hmn]
        · rw [List.cons_append]
          simp only [retainBeforeDeleteOk, if_neg hmn] at h1 ⊢
          exact ih h1
    | deleteSourceVSC m b =>
      by_cases hmn : m = n
      · simp [retainBeforeDeleteOk, hmn] at h1
      · rw [List.cons_append]
        simp only [retainBeforeDeleteOk, if_neg hmn] at h1 ⊢
        exact ih h1
    | createVS a v c =>
      rw [List.cons_append]
      simp only [retainBeforeDeleteOk] at h1 ⊢
      exact ih h1
    | createVSC v c =>
      rw [List.cons_append]
      simp only [retainBeforeDeleteOk] at h1 ⊢
      exact ih h1
    | deleteSourceVS a c b =>
      rw [List.cons_append]
      simp only [retainBeforeDeleteOk] at h1 ⊢
      exact ih h1
    | createPVC v c =>
      rw [List.cons_append]
      simp only [retainBeforeDeleteOk] at h1 ⊢
      exact ih h1
    | createPod v c =>
      rw [List.cons_append]
      simp only [retainBeforeDeleteOk] at h1 ⊢
      exact ih h1
    | deleteVSIfAny a c =>
      rw [List.cons_append]
      simp only [retainBeforeDeleteOk] at h1 ⊢
      exact ih h1
    | deletePVAndPVCIfAny a c =>
      rw [List.cons_append]
      simp only [retainBeforeDeleteOk] at h1 ⊢
      exact ih h1
    | deletePodIfAny a c =>
      rw [List.cons_append]
      simp only [retainBeforeDeleteOk] at h1 ⊢
      exact ih h1

theorem exposeAfterRetain_scan (owner : ObjectReference)
    (p : CSISnapshotExposeParam) (env : ExposeEnv) (s : Store)
    (svs : VolumeSnapshot) (vsc : VolumeSnapshotContent) (bvs : VolumeSnapshot)
    (n : String) (hvn : ¬(vsc.name = n)) :
    retainBeforeDeleteOk n (exposeAfterRetain owner p env s svs vsc bvs).ops = true := by
  cases hdvs : env.deleteSourceVSOk
  · simp [exposeAfterRetain, hdvs, retainBeforeDeleteOk]
  · cases hdvsc : env.deleteSourceVSCOk
    · simp [exposeAfterRetain, hdvs, hdvsc, retainBeforeDeleteOk, hvn]
    · have hsp : retainBeforeDeleteOk n (exposeSizeAndPVC owner p env
          (storeEraseVSC vsc.name (storeDeleteVS svs.ns svs.name s)) svs bvs).ops = true :=
        retainBeforeDeleteOk_of_all (exposeSizeAndPVC_ops_all owner p env _ svs bvs
          opIsNotSourceContentDelete (fun _ _ => rfl) (fun _ _ => rfl) (fun _ _ => rfl))
      simp [exposeAfterRetain, hdvs, hdvsc, retainBeforeDeleteOk, hvn, hsp]

theorem exposeAfterVS_scan (owner : ObjectReference)
    (p : CSISnapshotExposeParam) (env : ExposeEnv) (s : Store)
    (svs : VolumeSnapshot) (vsc : VolumeSnapshotContent) (bvs : VolumeSnapshot)
    (n : String) :
    retainBeforeDeleteOk n (exposeAfterVS owner p env s svs vsc bvs).ops = true := by
  cases hcv : env.createVSCOk
  · simp [exposeAfterVS, hcv, retainBeforeDeleteOk]
  · by_cases hpol : vsc.deletionPolicy = DeletionPolicy.retain
    · by_cases hvn : vsc.name = n
      · simp [exposeAfterVS, hcv, hpol, retainBeforeDeleteOk, hvn]
      · have := exposeAfterRetain_scan owner p env
          (storeInsertVSC (mkBackupVSC owner vsc bvs) s) svs vsc bvs n hvn
        simp [exposeAfterVS, hcv, hpol, retainBeforeDeleteOk, hvn, this]
    · cases hpr : env.patchRetainOk
      · simp [exposeAfterVS, hcv, hpol, hpr, retainBeforeDeleteOk]
      · by_cases hvn : vsc.name = n
        · simp [exposeAfterVS, hcv, hpol, hpr, retainBeforeDeleteOk, hvn]
        · have := exposeAfterRetain_scan owner p env
            (storeInsertVSC ({ vsc with deletionPolicy := DeletionPolicy.retain })
              (storeInsertVSC (mkBackupVSC owner vsc bvs) s)) svs vsc bvs n hvn
          simp [exposeAfterVS, hcv, hpol, hpr, retainBeforeDeleteOk, hvn, this]

/- Characterization of the claim-create calls in the trace. -/

theorem exposeSizeAndPVC_createPVC_mem (owner : ObjectReference)
    (p : CSISnapshotExposeParam) (env : ExposeEnv) (s : Store)
    (svs bvs : VolumeSnapshot) (v : PVC) (b : Bool)
    (h : StoreOp.createPVC v b ∈ (exposeSizeAndPVC owner p env s svs bvs).ops) :
    mkBackupPVC owner bvs.name (resolvedBackupPVCStorageClass p) p.accessMode
      (exposeVolumeSize svs p.volumeSize) (resolvedBackupPVCReadOnly p) =
      Except.ok v := by
  rcases hm : mkBackupPVC owner bvs.name (resolvedBackupPVCStorageClass p)
      p.accessMode (exposeVolumeSize svs p.volumeSize)
      (resolvedBackupPVCReadOnly p) with e | pvcObj
  · simp [exposeSizeAndPVC, hm] at h
  · cases hc : env.createPVCOk
    · simp [exposeSizeAndPVC, hm, hc] at h
      rw [h.1]
    · rcases hpi : env.podInfo with _ | info
      · simp [exposeSizeAndPVC, hm, hc, exposePod, hpi] at h
        rw [h.1]
      · cases hcp : env.createPodOk
        · simp [exposeSizeAndPVC, hm, hc, exposePod, hpi, hcp] at h
          rw [h.1]
        · simp [exposeSizeAndPVC, hm, hc, exposePod, hpi, hcp] at h
          rw [h.1]

theorem exposeAfterRetain_createPVC_mem (owner : ObjectReference)
    (p : CSISnapshotExposeParam) (env : ExposeEnv) (s : Store)
    (svs : VolumeSnapshot) (vsc : VolumeSnapshotContent) (bvs : VolumeSnapshot)
    (v : PVC) (b : Bool)
    (h : StoreOp.createPVC v b ∈ (exposeAfterRetain owner p env s svs vsc bvs).ops) :
    mkBackupPVC owner bvs.name (resolvedBackupPVCStorageClass p) p.accessMode
      (exposeVolumeSize svs p.volumeSize) (resolvedBackupPVCReadOnly p) =
      Except.ok v := by
  cases hdvs : env.deleteSourceVSOk
  · simp [exposeAfterRetain, hdvs] at h
  · cases hdvsc : env.deleteSourceVSCOk
    · simp [exposeAfterRetain, hdvs, hdvsc] at h
    · simp [exposeAfterRetain, hdvs, hdvsc] at h
      exact exposeSizeAndPVC_createPVC_mem owner p env _ svs bvs v b h

theorem exposeAfterVS_createPVC_mem (owner : ObjectReference)
    (p : CSISnapshotExposeParam) (env : ExposeEnv) (s : Store)
    (svs : VolumeSnapshot) (vsc : VolumeSnapshotContent) (bvs : VolumeSnapshot)
    (v : PVC) (b : Bool)
    (h : StoreOp.createPVC v b ∈ (exposeAfterVS owner p env s svs vsc bvs).ops) :
    mkBackupPVC owner bvs.name (resolvedBackupPVCStorageClass p) p.accessMode
      (exposeVolumeSize svs p.volumeSize) (resolvedBackupPVCReadOnly p) =
      Except.ok v := by
  cases hcv : env.createVSCOk
  · simp [exposeAfterVS, hcv] at h
  · by_cases hpol : vsc.deletionPolicy = DeletionPolicy.retain
    · simp [exposeAfterVS, hcv, hpol] at h
      exact exposeAfterRetain_createPVC_mem owner p env _ svs vsc bvs v b h
    · cases hpr : env.patchRetainOk
      · simp [exposeAfterVS, hcv, hpol, hpr] at h
      · simp [exposeAfterVS, hcv, hpol, hpr] at h
        exact exposeAfterRetain_createPVC_mem owner p env _ svs vsc bvs v b h

/- Claim theorems. -/

/-- C1 (counterexample): the claim says the Derived Content is created with
deletion policy Retain; at this concrete input createBackupVSC sets the
deletion policy to Delete, so the claim as stated is false. -/
theorem c1_retain_counterexample :
    (mkBackupVSC ownerEx vscEx (mkBackupVS ownerEx svsEx)).deletionPolicy ≠
      DeletionPolicy.retain := by
  decide

/-- C1 (amended): in Expose the Derived Content is created with deletion
policy Delete, with its driver and snapshot handle copied from the source
content and its snapshot reference pointing at the Derived Snapshot. -/
theorem c1_backupVSC_fields (owner : ObjectReference)
    (svsc : VolumeSnapshotContent) (svs : VolumeSnapshot) :
    (mkBackupVSC owner svsc (mkBackupVS owner svs)).deletionPolicy =
      DeletionPolicy.delete ∧
    (mkBackupVSC owner svsc (mkBackupVS owner svs)).driver = svsc.driver ∧
    (mkBackupVSC owner svsc (mkBackupVS owner svs)).sourceSnapshotHandle =
      svsc.statusSnapshotHandle ∧
    (mkBackupVSC owner svsc (mkBackupVS owner svs)).volumeSnapshotRef.name =
      (mkBackupVS owner svs).name ∧
    (mkBackupVSC owner svsc (mkBackupVS owner svs)).volumeSnapshotRef.ns =
      (mkBackupVS owner svs).ns :=
  ⟨rfl, rfl, rfl, rfl, rfl⟩

/-- C4 (counterexample): a matched remap entry with ReadOnly=true and
SkipRelabel=true, but a Windows node OS: the relabel-skip flag is resolved
honored, yet the hosting pod gets no SELinux relabel-skip treatment, so the
claim as stated fails. -/
theorem c4_windows_counterexample :
    alFind pExC4.storageClass pExC4.backupPVCConfig =
      some { storageClass := "", readOnly := true, spcNoRelabeling := true } ∧
    resolvedBackupPVCReadOnly pExC4 = true ∧
    resolvedSpcNoRelabeling pExC4 = true ∧
    pExC4.nodeOS = nodeOSWindows ∧
    (mkBackupPod ownerEx pvcEx 30 [] [] none resEx
      (resolvedBackupPVCReadOnly pExC4) (resolvedSpcNoRelabeling pExC4)
      pExC4.nodeOS infoEx).securityContext.seLinuxType = none := by
  decide

/-- C4 (amended): for a matched storage-class remap entry with
SkipRelabel=true: if ReadOnly=true the claim is created ReadOnlyMany and,
when the node OS is not Windows, the hosting pod gets the SELinux spc_t
relabel-skip treatment; if ReadOnly=false the claim is ReadWriteOnce and
relabel-skip is never applied (only a warning is logged). -/
theorem c4_access_mode_override (p : CSISnapshotExposeParam)
    (entry : BackupPVCCfg) (owner : ObjectReference) (bvsName sc : String)
    (q : Quantity) (bpvc : PVC) (ot : Nat) (lbl ann : List (String × String))
    (aff : Option LoadAffinity) (res : ResourceRequirements) (info : PodInfo)
    (hentry : alFind p.storageClass p.backupPVCConfig = some entry)
    (hspc : entry.spcNoRelabeling = true) :
    (entry.readOnly = true →
      resolvedBackupPVCReadOnly p = true ∧
      resolvedSpcNoRelabeling p = true ∧
      (mkBackupPVC owner bvsName sc p.accessMode q
          (resolvedBackupPVCReadOnly p)).map PVC.accessModes =
        (getVolumeModeByAccessMode p.accessMode).map
          (fun _ => [AccessMode.readOnlyMany]) ∧
      (p.nodeOS ≠ nodeOSWindows →
        (mkBackupPod owner bpvc ot lbl ann aff res (resolvedBackupPVCReadOnly p)
          (resolvedSpcNoRelabeling p) p.nodeOS info).securityContext.seLinuxType =
          some "spc_t")) ∧
    (entry.readOnly = false →
      resolvedBackupPVCReadOnly p = false ∧
      resolvedSpcNoRelabeling p = false ∧
      (mkBackupPVC owner bvsName sc p.accessMode q
          (resolvedBackupPVCReadOnly p)).map PVC.accessModes =
        (getVolumeModeByAccessMode p.accessMode).map
          (fun _ => [AccessMode.readWriteOnce]) ∧
      (mkBackupPod owner bpvc ot lbl ann aff res (resolvedBackupPVCReadOnly p)
        (resolvedSpcNoRelabeling p) p.nodeOS info).securityContext.seLinuxType =
        none) := by
  constructor
  · intro hro
    have hr : resolvedBackupPVCReadOnly p = true := by
      simp [resolvedBackupPVCReadOnly, hentry, hro]
    have hs : resolvedSpcNoRelabeling p = true := by
      simp [resolvedSpcNoRelabeling, hentry, hspc, hro]
    refine ⟨hr, hs, ?_, fun hos => ?_⟩
    · rcases hvm : getVolumeModeByAccessMode p.accessMode with e | vm
      · simp [mkBackupPVC, hvm, Except.map]
      · simp [mkBackupPVC, hvm, hr, Except.map]
    · simp [mkBackupPod, hos, hs]
  · intro hro
    have hr : resolvedBackupPVCReadOnly p = false := by
      simp [resolvedBackupPVCReadOnly, hentry, hro]
    have hs : resolvedSpcNoRelabeling p = false := by
      simp [resolvedSpcNoRelabeling, hentry, hspc, hro]
    refine ⟨hr, hs, ?_, ?_⟩
    · rcases hvm : getVolumeModeByAccessMode p.accessMode with e | vm
      · simp [mkBackupPVC, hvm, Except.map]
      · simp [mkBackupPVC, hvm, hr, Except.map]
    · by_cases hos : p.nodeOS = nodeOSWindows
      · simp [mkBackupPod, hos]
      · simp [mkBackupPod, hos, hs]

/-- C4 witness: the amended theorem applied at a concrete Linux-node remap
entry with ReadOnly=true and SkipRelabel=true. -/
theorem c4_access_mode_override_witness :
    resolvedSpcNoRelabeling pExC4ro = true ∧
    (mkBackupPod ownerEx pvcEx 30 [] [] none resEx
      (resolvedBackupPVCReadOnly pExC4ro) (resolvedSpcNoRelabeling pExC4ro)
      pExC4ro.nodeOS infoEx).securityContext.seLinuxType = some "spc_t" := by
  have h := c4_access_mode_override pExC4ro
    { storageClass := "", readOnly := true, spcNoRelabeling := true }
    ownerEx "o" "sc" 12 pvcEx 30 [] [] none resEx infoEx (by decide) (by decide)
  obtain ⟨h1, -⟩ := h
  obtain ⟨-, hb, -, hd⟩ := h1 (by decide)
  exact ⟨hb, hd (by decide)⟩

/-- C5: CleanUp has no error to return, is idempotent, and removes the
hosting pod, the intermediate claim plus any volume bound to it, the backup
snapshot, and the caller-named source snapshot, from any starting store. -/
theorem c5_cleanup_idempotent (owner : ObjectReference)
    (vsName srcNs : String) (s : Store) :
    cleanUp owner vsName srcNs (cleanUp owner vsName srcNs s) =
      cleanUp owner vsName srcNs s ∧
    alFind (owner.ns, owner.name) (cleanUp owner vsName srcNs s).pods = none ∧
    alFind (owner.ns, owner.name) (cleanUp owner vsName srcNs s).pvcs = none ∧
    noPVBoundTo owner.ns owner.name (cleanUp owner vsName srcNs s).pvs = true ∧
    alFind (owner.ns, owner.name) (cleanUp owner vsName srcNs s).snapshots = none ∧
    alFind (srcNs, vsName) (cleanUp owner vsName srcNs s).snapshots = none := by
  refine ⟨?_, ?_, ?_, ?_, ?_, ?_⟩
  · simp [cleanUp, storeDeleteVS, storeDeletePVAndPVC, storeDeletePod,
      alErase_idem, erasePVs_idem, alErase_absorb]
  · simp [cleanUp, storeDeleteVS, storeDeletePVAndPVC, storeDeletePod,
      alFind_erase_self]
  · simp [cleanUp, storeDeleteVS, storeDeletePVAndPVC, storeDeletePod,
      alFind_erase_self]
  · simp [cleanUp, storeDeleteVS, storeDeletePVAndPVC, storeDeletePod,
      noPVBoundTo_erasePVs]
  · simp only [cleanUp, storeDeleteVS, storeDeletePVAndPVC, storeDeletePod]
    exact alFind_erase_none _ (alFind_erase_self _ _)
  · simp only [cleanUp, storeDeleteVS, storeDeletePVAndPVC, storeDeletePod]
    exact alFind_erase_self _ _

/-- C7: GetExposed yields (nil, nil) when the hosting pod lookup reports
not-found, and (nil, err) with a non-nil error on any other lookup failure. -/
theorem c7_not_found_vs_error (owner : ObjectReference) (bound : Bool)
    (msg : String) :
    getExposed owner { podGet := PodGetResult.notFound, pvcBoundOk := bound } =
      (none, none) ∧
    (getExposed owner
      { podGet := PodGetResult.otherError msg, pvcBoundOk := bound }).1 = none ∧
    ((getExposed owner
      { podGet := PodGetResult.otherError msg, pvcBoundOk := bound }).2).isSome =
      true :=
  ⟨rfl, rfl, rfl⟩

/-- C8: PeekExposed returns nil on not-found, nil after logging on any other
fetch error, and exactly the classifier's message when the pod is found and
classified unrecoverable. -/
theorem c8_peek_classification (owner : ObjectReference) (pod : Pod)
    (msg : String) (cls : Pod → Bool × String) :
    peekExposed owner
      { podGet := PodGetResult.notFound, isPodUnrecoverable := cls } = none ∧
    peekExposed owner
      { podGet := PodGetResult.otherError msg, isPodUnrecoverable := cls } = none ∧
    peekExposed owner
      { podGet := PodGetResult.found pod,
        isPodUnrecoverable := fun _ => (true, msg) } = some msg ∧
    peekExposed owner
      { podGet := PodGetResult.found pod,
        isPodUnrecoverable := fun _ => (false, msg) } = none :=
  ⟨rfl, rfl, rfl, rfl⟩

/-- C9: every derived object created by Expose is named after the owner
object; the pod's container and volume are named by the owner UID string;
and GetExposed reports exactly those deterministic names. -/
theorem c9_deterministic_naming (owner : ObjectReference)
    (svs : VolumeSnapshot) (svsc : VolumeSnapshotContent)
    (bvsName sc : String) (q : Quantity) (ro : Bool) (bpvc : PVC) (ot : Nat)
    (lbl ann : List (String × String)) (aff : Option LoadAffinity)
    (res : ResourceRequirements) (rdo spc : Bool) (nodeOS : String)
    (info : PodInfo) (env : GetExposedEnv) :
    (mkBackupVS owner svs).name = owner.name ∧
    (mkBackupVS owner svs).ns = owner.ns ∧
    (mkBackupVSC owner svsc (mkBackupVS owner svs)).name = owner.name ∧
    (mkBackupPVC owner bvsName sc AccessModeFileSystem q ro).map PVC.name =
      Except.ok owner.name ∧
    (mkBackupPod owner bpvc ot lbl ann aff res rdo spc nodeOS info).name =
      owner.name ∧
    (mkBackupPod owner bpvc ot lbl ann aff res rdo spc nodeOS info).containers.map
      Container.name = [owner.uid] ∧
    ((mkBackupPod owner bpvc ot lbl ann aff res rdo spc nodeOS info).volumes.head?).map
      PodVolume.name = some owner.uid ∧
    ((getExposed owner env).1.map fun r => (r.hostingContainer, r.volumeName)) =
      ((getExposed owner env).1.map fun _ => (owner.uid, owner.uid)) := by
  refine ⟨rfl, rfl, rfl,
    by simp [mkBackupPVC, getVolumeModeByAccessMode, Except.map], rfl, rfl, rfl, ?_⟩
  rcases env with ⟨pg, b⟩
  cases pg with
  | notFound => rfl
  | otherError m => rfl
  | found pod =>
    cases b
    · rfl
    · rcases hf : pod.volumes.find? (fun v => v.name = owner.uid) with _ | v
      · simp [getExposed, hf]
      · simp [getExposed, hf]

/-- C10: the Derived Snapshot is created with an empty owner-reference list,
while the Intermediate Claim and the Hosting Pod each carry a controller
owner reference to the owner object. -/
theorem c10_owner_references (owner : ObjectReference) (svs : VolumeSnapshot)
    (bvsName sc : String) (q : Quantity) (ro : Bool) (bpvc : PVC) (ot : Nat)
    (lbl ann : List (String × String)) (aff : Option LoadAffinity)
    (res : ResourceRequirements) (rdo spc : Bool) (nodeOS : String)
    (info : PodInfo) :
    (mkBackupVS owner svs).ownerReferences = [] ∧
    (mkBackupPVC owner bvsName sc AccessModeFileSystem q ro).map
        PVC.ownerReferences =
      Except.ok [{ apiVersion := owner.apiVersion, kind := owner.kind
                   name := owner.name, uid := owner.uid, controller := true }] ∧
    (mkBackupPod owner bpvc ot lbl ann aff res rdo spc nodeOS info).ownerReferences =
      [{ apiVersion := owner.apiVersion, kind := owner.kind
         name := owner.name, uid := owner.uid, controller := true }] :=
  ⟨rfl, by simp [mkBackupPVC, getVolumeModeByAccessMode, Except.map], rfl⟩

/-- C3: in every run of Expose, the source-content delete call is only ever
issued strictly after a successful retain call for that same content: the
trace scan retainBeforeDeleteOk holds for every content name. -/
theorem c3_retain_before_source_content_delete (owner : ObjectReference)
    (p : CSISnapshotExposeParam) (env : ExposeEnv) (s0 : Store) (n : String) :
    retainBeforeDeleteOk n (expose owner p env s0).ops = true := by
  rcases hvs : alFind (p.sourceNamespace, p.snapshotName) s0.snapshots with _ | svs
  · cases hr : env.vsReady <;> simp [expose, hvs, hr, retainBeforeDeleteOk]
  · cases hr : env.vsReady
    · simp [expose, hvs, hr, retainBeforeDeleteOk]
    · rcases hst : svs.status with _ | st
      · simp [expose, hvs, hr, hst, retainBeforeDeleteOk]
      · rcases hb : st.boundVolumeSnapshotContentName with _ | vscName
        · simp [expose, hvs, hr, hst, hb, retainBeforeDeleteOk]
        · rcases hvsc : alFind vscName s0.contents with _ | vsc
          · simp [expose, hvs, hr, hst, hb, hvsc, retainBeforeDeleteOk]
          · cases hcv : env.createVSOk
            · simp [expose, hvs, hr, hst, hb, hvsc, hcv, retainBeforeDeleteOk]
            · have hscan := exposeAfterVS_scan owner p env
                (storeInsertVS (mkBackupVS owner svs) s0) svs vsc
                (mkBackupVS owner svs) n
              rcases he : (exposeAfterVS owner p env
                  (storeInsertVS (mkBackupVS owner svs) s0) svs vsc
                  (mkBackupVS owner svs)).err with _ | e
              · simp only [expose, hvs, hr, hst, hb, hvsc, hcv, he,
                  retainBeforeDeleteOk]
                exact hscan
              · simp only [expose, hvs, hr, hst, hb, hvsc, hcv, he,
                  retainBeforeDeleteOk]
                exact retainBeforeDeleteOk_append hscan rfl

/-- C6: every claim-create call Expose issues requests exactly the source
snapshot's reported restore size when that size is present and non-zero, and
the caller-requested volume size otherwise. -/
theorem c6_volume_size_fallback (owner : ObjectReference)
    (p : CSISnapshotExposeParam) (env : ExposeEnv) (s0 : Store)
    (svs : VolumeSnapshot) (v : PVC) (b : Bool)
    (hvs : alFind (p.sourceNamespace, p.snapshotName) s0.snapshots = some svs)
    (hmem : StoreOp.createPVC v b ∈ (expose owner p env s0).ops) :
    v.requestStorage =
      match svs.status with
      | some st =>
        match st.restoreSize with
        | some q => if q = 0 then p.volumeSize else q
        | none => p.volumeSize
      | none => p.volumeSize := by
  cases hr : env.vsReady
  · simp [expose, hvs, hr] at hmem
  · rcases hst : svs.status with _ | st
    · simp [expose, hvs, hr, hst] at hmem
    · rcases hb : st.boundVolumeSnapshotContentName with _ | vscName
      · simp [expose, hvs, hr, hst, hb] at hmem
      · rcases hvsc : alFind vscName s0.contents with _ | vsc
        · simp [expose, hvs, hr, hst, hb, hvsc] at hmem
        · cases hcv : env.createVSOk
          · simp [expose, hvs, hr, hst, hb, hvsc, hcv] at hmem
          · rcases he : (exposeAfterVS owner p env
                (storeInsertVS (mkBackupVS owner svs) s0) svs vsc
                (mkBackupVS owner svs)).err with _ | e
            · simp [expose, hvs, hr, hst, hb, hvsc, hcv, he] at hmem
              have hok := exposeAfterVS_createPVC_mem owner p env _ svs vsc
                (mkBackupVS owner svs) v b hmem
              obtain ⟨-, -, hreq, -, -, -⟩ := mkBackupPVC_ok_fields hok
              rw [hreq]
              simp [exposeVolumeSize, hst]
            · simp [expose, hvs, hr, hst, hb, hvsc, hcv, he] at hmem
              have hok := exposeAfterVS_createPVC_mem owner p env _ svs vsc
                (mkBackupVS owner svs) v b hmem
              obtain ⟨-, -, hreq, -, -, -⟩ := mkBackupPVC_ok_fields hok
              rw [hreq]
              simp [exposeVolumeSize, hst]

/-- C6 witness: the theorem applied at a concrete run whose snapshot
reports restore size 12 with caller size 10; the created claim requests 12. -/
theorem c6_volume_size_fallback_witness :
    pvcWitEx.requestStorage =
      match svsEx.status with
      | some st =>
        match st.restoreSize with
        | some q => if q = 0 then pEx.volumeSize else q
        | none => pEx.volumeSize
      | none => pEx.volumeSize :=
  c6_volume_size_fallback ownerEx pEx envPVCFailEx storeEx svsEx pvcWitEx false
    (by decide) (by decide)

/-- C2: whenever Expose fails after the Derived Snapshot was created, the
compensation chain leaves no backup snapshot, no intermediate claim, no
volume bound to it, and no hosting pod in the store, never issues a delete
for the derived content, and leaves the Derived Content in the store when
its create succeeded. -/
theorem c2_rollback_completeness (owner : ObjectReference)
    (p : CSISnapshotExposeParam) (env : ExposeEnv) (s0 : Store)
    (svs : VolumeSnapshot) (st : VolumeSnapshotStatus) (vscName : String)
    (vsc : VolumeSnapshotContent)
    (hvs : alFind (p.sourceNamespace, p.snapshotName) s0.snapshots = some svs)
    (hready : env.vsReady = true)
    (hst : svs.status = some st)
    (hbound : st.boundVolumeSnapshotContentName = some vscName)
    (hvsc : alFind vscName s0.contents = some vsc)
    (hne : vsc.name ≠ owner.name)
    (hcvs : env.createVSOk = true)
    (hpvc0 : alFind (owner.ns, owner.name) s0.pvcs = none)
    (hpod0 : alFind (owner.ns, owner.name) s0.pods = none)
    (hpv0 : noPVBoundTo owner.ns owner.name s0.pvs = true)
    (herr : (expose owner p env s0).err.isSome = true) :
    alFind (owner.ns, owner.name) (expose owner p env s0).store.snapshots = none ∧
    alFind (owner.ns, owner.name) (expose owner p env s0).store.pvcs = none ∧
    alFind (owner.ns, owner.name) (expose owner p env s0).store.pods = none ∧
    noPVBoundTo owner.ns owner.name (expose owner p env s0).store.pvs = true ∧
    ((expose owner p env s0).ops.all
      (fun op => !(opDeletesContentNamed owner.name op))) = true ∧
    (env.createVSCOk = true →
      alFind owner.name (expose owner p env s0).store.contents =
        some (mkBackupVSC owner vsc (mkBackupVS owner svs))) := by
  rcases he : (exposeAfterVS owner p env (storeInsertVS (mkBackupVS owner svs) s0)
      svs vsc (mkBackupVS owner svs)).err with _ | e
  · simp [expose, hvs, hready, hst, hbound, hvsc, hcvs, he] at herr
  · have hstore : (expose owner p env s0).store =
        storeDeleteVS (mkBackupVS owner svs).ns (mkBackupVS owner svs).name
          (exposeAfterVS owner p env (storeInsertVS (mkBackupVS owner svs) s0)
            svs vsc (mkBackupVS owner svs)).store := by
      simp [expose, hvs, hready, hst, hbound, hvsc, hcvs, he]
    have hops : (expose owner p env s0).ops =
        StoreOp.createVS owner.ns (mkBackupVS owner svs) true ::
          ((exposeAfterVS owner p env (storeInsertVS (mkBackupVS owner svs) s0)
              svs vsc (mkBackupVS owner svs)).ops ++
            [StoreOp.deleteVSIfAny (mkBackupVS owner svs).ns
              (mkBackupVS owner svs).name]) := by
      simp [expose, hvs, hready, hst, hbound, hvsc, hcvs, he]
    obtain ⟨hp1, hp2, hp3, hp4⟩ := exposeAfterVS_err_store owner p env
      (storeInsertVS (mkBackupVS owner svs) s0) svs vsc (mkBackupVS owner svs)
      (by simp [he])
    refine ⟨?_, ?_, ?_, ?_, ?_, fun hcvsc => ?_⟩
    · rw [hstore]
      simp only [storeDeleteVS]
      rw [show (mkBackupVS owner svs).ns = owner.ns from rfl,
          show (mkBackupVS owner svs).name = owner.name from rfl]
      exact alFind_erase_self _ _
    · rw [hstore]
      simp only [storeDeleteVS]
      apply hp2
      simpa [storeInsertVS] using hpvc0
    · rw [hstore]
      simp only [storeDeleteVS]
      rw [hp1]
      simpa [storeInsertVS] using hpod0
    · rw [hstore]
      simp only [storeDeleteVS]
      apply hp3
      simpa [storeInsertVS] using hpv0
    · rw [hops]
      simp only [List.all_cons, List.all_append, Bool.and_eq_true]
      refine ⟨by simp [opDeletesContentNamed], ?_,
        by simp [opDeletesContentNamed]⟩
      exact exposeAfterVS_ops_all owner p env _ svs vsc _ _
        (fun v b => by simp [opDeletesContentNamed])
        (fun pod b => by simp [opDeletesContentNamed])
        (fun a c => by simp [opDeletesContentNamed])
        (fun a c b => by simp [opDeletesContentNamed])
        (fun b => by simp [opDeletesContentNamed, hne])
        (fun v b => by simp [opDeletesContentNamed])
        (fun m b => by simp [opDeletesContentNamed])
    · rw [hstore]
      simp only [storeDeleteVS]
      exact hp4 hne hcvsc

/-- C2 witness: the theorem applied at a concrete run with claim-create
failure injected after the Derived Snapshot and Derived Content were
created. -/
theorem c2_rollback_completeness_witness :
    alFind (ownerEx.ns, ownerEx.name)
      (expose ownerEx pEx envPVCFailEx storeEx).store.snapshots = none ∧
    alFind (ownerEx.ns, ownerEx.name)
      (expose ownerEx pEx envPVCFailEx storeEx).store.pvcs = none ∧
    alFind (ownerEx.ns, ownerEx.name)
      (expose ownerEx pEx envPVCFailEx storeEx).store.pods = none ∧
    noPVBoundTo ownerEx.ns ownerEx.name
      (expose ownerEx pEx envPVCFailEx storeEx).store.pvs = true ∧
    ((expose ownerEx pEx envPVCFailEx storeEx).ops.all
      (fun op => !(opDeletesContentNamed ownerEx.name op))) = true ∧
    (envPVCFailEx.createVSCOk = true →
      alFind ownerEx.name (expose ownerEx pEx envPVCFailEx storeEx).store.contents =
        some (mkBackupVSC ownerEx vscEx (mkBackupVS ownerEx svsEx))) :=
  c2_rollback_completeness ownerEx pEx envPVCFailEx storeEx svsEx
    { boundVolumeSnapshotContentName := some "c", restoreSize := some 12 }
    "c" vscEx (by decide) (by decide) (by decide) (by decide) (by decide)
    (by decide) (by decide) (by decide) (by decide) (by decide) (by decide)

/-- C3 witness: a concrete run in which the source-content delete call is
actually issued, and the scan confirms a successful retain preceded it. -/
theorem c3_retain_before_source_content_delete_witness :
    StoreOp.deleteSourceVSC "c" false ∈
      (expose ownerEx pEx envDelVSCFailEx storeEx).ops ∧
    retainBeforeDeleteOk "c" (expose ownerEx pEx envDelVSCFailEx storeEx).ops =
      true :=
  ⟨by decide,
   c3_retain_before_source_content_delete ownerEx pEx envDelVSCFailEx storeEx "c"⟩

end VeleroExposer
